import Mathlib

/-!
# Rpilight LED control service

A shallow embedding of `Rpilight::ledControl`
(`hardware/interfaces/rpilight/aidl/default/Rpilight.cpp`).

The handler talks to the operating system through `open`, `write`, `close`
and the logger.  The embedding threads an explicit kernel state through the
handler: the table of descriptors the process holds and the ordered record of
calls it has issued.  What the operating system answers to `open` and `write`
during one invocation is a parameter (`Outcome`), so every theorem
quantifies over all answers.
-/

namespace Rpilight

/-! ## Platform types -/

/-- Modelled from the spec: the status type `ndk::ScopedAStatus` of the RPC
platform, whose declaration is outside the repository.  A status is either OK
or a service-specific error carrying the code it was built from. -/
inductive ScopedAStatus where
  | ok
  | serviceSpecificError (code : Int)
deriving DecidableEq, Repr

/-- Modelled from the spec: `ndk::ScopedAStatus::fromServiceSpecificError`,
the platform constructor of a service-specific error status. -/
def ScopedAStatus.fromServiceSpecificError (code : Int) : ScopedAStatus :=
  ScopedAStatus.serviceSpecificError code

/-- One call issued to the operating system or to the logger. -/
inductive Syscall where
  | sysOpen (path : String) (flags : Nat) (result : Int)
  | sysWrite (fd : Int) (bytes : List Char) (result : Int)
  | sysClose (fd : Int)
  | log (msg : String)
deriving DecidableEq, Repr

/-- Process-side view of the operating system: the descriptors currently held
and every call issued so far, oldest first. -/
structure Kernel where
  openFds : List Int
  trace : List Syscall
deriving DecidableEq, Repr

/-- What the operating system answers during one invocation: the value
returned by `open` and the value `write` reports (as stored in `int ret`). -/
structure Outcome where
  openResult : Int
  writeResult : Int
deriving DecidableEq, Repr

/-- Modelled from the spec: the `O_WRONLY` access mode of `<fcntl.h>`. -/
def O_WRONLY : Nat := 1

/-- Modelled from the spec: `open(path, flags)`.  The call is recorded; a
non-negative result is a fresh descriptor that the process now holds. -/
def posixOpen (o : Outcome) (path : String) (flags : Nat) (k : Kernel) : Int × Kernel :=
  let fd := o.openResult
  (fd, Kernel.mk (if 0 ≤ fd then fd :: k.openFds else k.openFds)
          (k.trace ++ [Syscall.sysOpen path flags fd]))

/-- Modelled from the spec: `write(fd, buf, count)`.  The first `count` bytes
of `buf` are handed to the descriptor; the reported result is recorded. -/
def posixWrite (o : Outcome) (fd : Int) (buf : List Char) (count : Nat) (k : Kernel) :
    Int × Kernel :=
  (o.writeResult,
    Kernel.mk k.openFds (k.trace ++ [Syscall.sysWrite fd (buf.take count) o.writeResult]))

/-- Modelled from the spec: `close(fd)`.  The descriptor is released. -/
def posixClose (fd : Int) (k : Kernel) : Kernel :=
  Kernel.mk (k.openFds.erase fd) (k.trace ++ [Syscall.sysClose fd])

/-- Modelled from the spec: the platform logger `ALOGE`, applied to the
already formatted message. -/
def ALOGE (msg : String) (k : Kernel) : Kernel :=
  Kernel.mk k.openFds (k.trace ++ [Syscall.log msg])

/-! ## The handler -/

/-- The constant `LED_FILE_PATH` of `ledControl`. -/
def LED_FILE_PATH : String := "/sys/class/leds/ACT/brightness"

/-- The array `LED_ON_VALUE[] = "255"`, terminator included. -/
def LED_ON_VALUE : List Char := ['2', '5', '5', Char.ofNat 0]

/-- The array `LED_OFF_VALUE[] = "0"`, terminator included. -/
def LED_OFF_VALUE : List Char := ['0', Char.ofNat 0]

/-- The operator `sizeof` on a character array: its number of elements. -/
def sizeof (a : List Char) : Nat := a.length

/-- The text a `%s` directive prints for a character array: the characters
before the first terminator. -/
def cString (a : List Char) : String :=
  String.mk (a.takeWhile (fun c => c != Char.ofNat 0))

/-- Result of one invocation: the returned status, the value of the caller's
output cell `*_aidl_return` afterwards, and the kernel state afterwards. -/
structure CallResult where
  status : ScopedAStatus
  aidl_return : Int
  kernel : Kernel
deriving DecidableEq, Repr

/-- The handler `Rpilight::ledControl(in_state, _aidl_return)`.  The argument
`aidl_return` is the content of the caller's output cell before the call. -/
def ledControl (o : Outcome) (in_state : Int) (aidl_return : Int) (k : Kernel) : CallResult :=
  let (fd, k) := posixOpen o LED_FILE_PATH O_WRONLY k
  if fd < 0 then
    let k := ALOGE ("Failed to open " ++ LED_FILE_PATH) k
    CallResult.mk (ScopedAStatus.fromServiceSpecificError (-1)) aidl_return k
  else
    let (ret, k) :=
      if in_state > 0 then
        let (r, k) := posixWrite o fd LED_ON_VALUE (sizeof LED_ON_VALUE - 1) k
        (r, ALOGE ("Setting LED On  " ++ cString LED_ON_VALUE) k)
      else
        let (r, k) := posixWrite o fd LED_OFF_VALUE (sizeof LED_OFF_VALUE - 1) k
        (r, ALOGE ("Setting LED Off  " ++ cString LED_OFF_VALUE) k)
    let k := posixClose fd k
    if ret < 0 then
      let k := ALOGE ("Failed to write to " ++ LED_FILE_PATH) k
      CallResult.mk (ScopedAStatus.fromServiceSpecificError (-1)) aidl_return k
    else
      CallResult.mk ScopedAStatus.ok 1 k

/-! ## Observations on the record of calls -/

/-- The `write` calls of a record, as (descriptor, bytes) pairs in order. -/
def writesOf : List Syscall → List (Int × List Char)
  | [] => []
  | Syscall.sysWrite fd bytes _ :: t => (fd, bytes) :: writesOf t
  | _ :: t => writesOf t

/-- The `close` calls of a record: the descriptors closed, in order. -/
def closesOf : List Syscall → List Int
  | [] => []
  | Syscall.sysClose fd :: t => fd :: closesOf t
  | _ :: t => closesOf t

/-- The `open` calls of a record, as (path, flags, result) triples in order. -/
def opensOf : List Syscall → List (String × Nat × Int)
  | [] => []
  | Syscall.sysOpen p f r :: t => (p, f, r) :: opensOf t
  | _ :: t => opensOf t

/-- The record with the logger lines removed: file-system calls only. -/
def ioOf : List Syscall → List Syscall
  | [] => []
  | Syscall.log _ :: t => ioOf t
  | e :: t => e :: ioOf t

/-- The bytes of the most recent `write` of a record, if there is one. -/
def lastWritten (t : List Syscall) : Option (List Char) :=
  (writesOf t).getLast?.map Prod.snd

/-- A client issuing a sequence of invocations, each with its own requested
state and its own answers from the operating system. -/
def repeatedCalls : List (Outcome × Int) → Int → Kernel → Int × Kernel
  | [], out, k => (out, k)
  | (o, s) :: rest, out, k =>
      let r := ledControl o s out k
      repeatedCalls rest r.aidl_return r.kernel

/-! ## Auxiliary facts -/

theorem writesOf_append (a b : List Syscall) :
    writesOf (a ++ b) = writesOf a ++ writesOf b := by
  induction a with
  | nil => rfl
  | cons e t ih => cases e <;> simp [writesOf, ih]

theorem closesOf_append (a b : List Syscall) :
    closesOf (a ++ b) = closesOf a ++ closesOf b := by
  induction a with
  | nil => rfl
  | cons e t ih => cases e <;> simp [closesOf, ih]

theorem opensOf_append (a b : List Syscall) :
    opensOf (a ++ b) = opensOf a ++ opensOf b := by
  induction a with
  | nil => rfl
  | cons e t ih => cases e <;> simp [opensOf, ih]

theorem ioOf_append (a b : List Syscall) :
    ioOf (a ++ b) = ioOf a ++ ioOf b := by
  induction a with
  | nil => rfl
  | cons e t ih => cases e <;> simp [ioOf, ih]

/-- The whole result of an invocation whose `open` fails. -/
theorem ledControl_open_failed (o : Outcome) (in_state out : Int) (k : Kernel)
    (ho : o.openResult < 0) :
    ledControl o in_state out k =
      CallResult.mk (ScopedAStatus.serviceSpecificError (-1)) out
        (Kernel.mk k.openFds
          (k.trace ++ [Syscall.sysOpen LED_FILE_PATH O_WRONLY o.openResult,
                       Syscall.log ("Failed to open " ++ LED_FILE_PATH)])) := by
  have h : ¬ (0 ≤ o.openResult) := by omega
  simp [ledControl, posixOpen, ALOGE, ScopedAStatus.fromServiceSpecificError, ho, h]

/-- The whole result of an invocation with a positive state whose `open`
succeeds. -/
theorem ledControl_opened_on (o : Outcome) (in_state out : Int) (k : Kernel)
    (ho : 0 ≤ o.openResult) (hs : 0 < in_state) :
    ledControl o in_state out k =
      CallResult.mk
        (if o.writeResult < 0 then ScopedAStatus.serviceSpecificError (-1)
          else ScopedAStatus.ok)
        (if o.writeResult < 0 then out else 1)
        (Kernel.mk k.openFds
          (k.trace ++ [Syscall.sysOpen LED_FILE_PATH O_WRONLY o.openResult,
                       Syscall.sysWrite o.openResult ['2', '5', '5'] o.writeResult,
                       Syscall.log "Setting LED On  255",
                       Syscall.sysClose o.openResult] ++
            (if o.writeResult < 0
              then [Syscall.log ("Failed to write to " ++ LED_FILE_PATH)] else []))) := by
  have h : ¬ (o.openResult < 0) := by omega
  have e1 : "Setting LED On  " ++ cString ['2', '5', '5', Char.ofNat 0] =
      "Setting LED On  255" := by decide
  by_cases hw : o.writeResult < 0 <;>
    simp [ledControl, posixOpen, posixWrite, posixClose, ALOGE,
      ScopedAStatus.fromServiceSpecificError, ho, h, hs, hw, e1, LED_ON_VALUE, sizeof]

/-- The whole result of an invocation with a non-positive state whose `open`
succeeds. -/
theorem ledControl_opened_off (o : Outcome) (in_state out : Int) (k : Kernel)
    (ho : 0 ≤ o.openResult) (hs : in_state ≤ 0) :
    ledControl o in_state out k =
      CallResult.mk
        (if o.writeResult < 0 then ScopedAStatus.serviceSpecificError (-1)
          else ScopedAStatus.ok)
        (if o.writeResult < 0 then out else 1)
        (Kernel.mk k.openFds
          (k.trace ++ [Syscall.sysOpen LED_FILE_PATH O_WRONLY o.openResult,
                       Syscall.sysWrite o.openResult ['0'] o.writeResult,
                       Syscall.log "Setting LED Off  0",
                       Syscall.sysClose o.openResult] ++
            (if o.writeResult < 0
              then [Syscall.log ("Failed to write to " ++ LED_FILE_PATH)] else []))) := by
  have h : ¬ (o.openResult < 0) := by omega
  have hs2 : ¬ (0 < in_state) := by omega
  have e1 : "Setting LED Off  " ++ cString ['0', Char.ofNat 0] =
      "Setting LED Off  0" := by decide
  by_cases hw : o.writeResult < 0 <;>
    simp [ledControl, posixOpen, posixWrite, posixClose, ALOGE,
      ScopedAStatus.fromServiceSpecificError, ho, h, hs2, hw, e1, LED_OFF_VALUE, sizeof]

/-- The descriptor table is the same after an invocation as before it. -/
theorem ledControl_openFds (o : Outcome) (in_state out : Int) (k : Kernel) :
    (ledControl o in_state out k).kernel.openFds = k.openFds := by
  by_cases ho : 0 ≤ o.openResult
  · by_cases hs : 0 < in_state
    · rw [ledControl_opened_on o in_state out k ho hs]
    · rw [ledControl_opened_off o in_state out k ho (by omega)]
  · rw [ledControl_open_failed o in_state out k (by omega)]

/-- The descriptor table is the same after any sequence of invocations. -/
theorem repeatedCalls_openFds (calls : List (Outcome × Int)) (out : Int) (k : Kernel) :
    (repeatedCalls calls out k).2.openFds = k.openFds := by
  induction calls generalizing out k with
  | nil => rfl
  | cons c rest ih =>
      obtain ⟨o, s⟩ := c
      simp only [repeatedCalls]
      rw [ih, ledControl_openFds]

/-- The file-system calls of an invocation whose `open` succeeds. -/
theorem ledControl_io_opened (o : Outcome) (in_state out : Int) (k : Kernel)
    (ho : 0 ≤ o.openResult) :
    ioOf (ledControl o in_state out k).kernel.trace =
      ioOf k.trace ++
        [Syscall.sysOpen LED_FILE_PATH O_WRONLY o.openResult,
         Syscall.sysWrite o.openResult (if 0 < in_state then ['2', '5', '5'] else ['0'])
           o.writeResult,
         Syscall.sysClose o.openResult] := by
  by_cases hs : 0 < in_state
  · rw [ledControl_opened_on o in_state out k ho hs]
    by_cases hw : o.writeResult < 0 <;> simp [hw, hs, ioOf_append, ioOf]
  · rw [ledControl_opened_off o in_state out k ho (by omega)]
    by_cases hw : o.writeResult < 0 <;> simp [hw, hs, ioOf_append, ioOf]

/-- The file-system calls of an invocation whose `open` fails. -/
theorem ledControl_io_failed (o : Outcome) (in_state out : Int) (k : Kernel)
    (ho : o.openResult < 0) :
    ioOf (ledControl o in_state out k).kernel.trace =
      ioOf k.trace ++ [Syscall.sysOpen LED_FILE_PATH O_WRONLY o.openResult] := by
  rw [ledControl_open_failed o in_state out k ho]
  simp [ioOf_append, ioOf]

/-! ## The claims -/

/-- C1: for every requested state greater than zero (the largest 32-bit value
included), when `open` succeeds and `write` reports a non-negative result,
`ledControl` issues exactly one `write`, on the descriptor just opened, whose
payload is the three characters `2`, `5`, `5` and nothing else, returns OK
and sets the output cell to 1. -/
theorem ledControl_positive_writes_255 (o : Outcome) (in_state out : Int) (k : Kernel)
    (hs : 0 < in_state) (ho : 0 ≤ o.openResult) (hw : 0 ≤ o.writeResult) :
    writesOf (ledControl o in_state out k).kernel.trace =
        writesOf k.trace ++ [(o.openResult, ['2', '5', '5'])] ∧
      (ledControl o in_state out k).status = ScopedAStatus.ok ∧
      (ledControl o in_state out k).aidl_return = 1 := by
  have hw2 : ¬ (o.writeResult < 0) := by omega
  rw [ledControl_opened_on o in_state out k ho hs]
  simp [hw2, writesOf_append, writesOf]

/-- An instance of C1 at the largest 32-bit state. -/
theorem ledControl_positive_writes_255_witness :
    (0 : Int) < 2147483647 ∧ (0 : Int) ≤ (Outcome.mk 3 3).openResult ∧
      (0 : Int) ≤ (Outcome.mk 3 3).writeResult ∧
      writesOf (ledControl (Outcome.mk 3 3) 2147483647 0 (Kernel.mk [] [])).kernel.trace =
        writesOf [] ++ [(3, "255".toList)] ∧
      (ledControl (Outcome.mk 3 3) 2147483647 0 (Kernel.mk [] [])).status = ScopedAStatus.ok ∧
      (ledControl (Outcome.mk 3 3) 2147483647 0 (Kernel.mk [] [])).aidl_return = 1 :=
  ⟨by decide, by decide, by decide,
    ledControl_positive_writes_255 (Outcome.mk 3 3) 2147483647 0 (Kernel.mk [] [])
      (by decide) (by decide) (by decide)⟩

/-- C2: for every requested state that is zero or negative (the smallest
32-bit value included), when `open` succeeds and `write` reports a
non-negative result, `ledControl` issues exactly one `write`, on the
descriptor just opened, whose payload is the single character `0` and nothing
else, returns OK and sets the output cell to 1. -/
theorem ledControl_nonpositive_writes_0 (o : Outcome) (in_state out : Int) (k : Kernel)
    (hs : in_state ≤ 0) (ho : 0 ≤ o.openResult) (hw : 0 ≤ o.writeResult) :
    writesOf (ledControl o in_state out k).kernel.trace =
        writesOf k.trace ++ [(o.openResult, ['0'])] ∧
      (ledControl o in_state out k).status = ScopedAStatus.ok ∧
      (ledControl o in_state out k).aidl_return = 1 := by
  have hw2 : ¬ (o.writeResult < 0) := by omega
  rw [ledControl_opened_off o in_state out k ho hs]
  simp [hw2, writesOf_append, writesOf]

/-- An instance of C2 at the smallest 32-bit state. -/
theorem ledControl_nonpositive_writes_0_witness :
    (-2147483648 : Int) ≤ 0 ∧ (0 : Int) ≤ (Outcome.mk 4 1).openResult ∧
      (0 : Int) ≤ (Outcome.mk 4 1).writeResult ∧
      writesOf (ledControl (Outcome.mk 4 1) (-2147483648) 0 (Kernel.mk [] [])).kernel.trace =
        writesOf [] ++ [(4, "0".toList)] ∧
      (ledControl (Outcome.mk 4 1) (-2147483648) 0 (Kernel.mk [] [])).status =
        ScopedAStatus.ok ∧
      (ledControl (Outcome.mk 4 1) (-2147483648) 0 (Kernel.mk [] [])).aidl_return = 1 :=
  ⟨by decide, by decide, by decide,
    ledControl_nonpositive_writes_0 (Outcome.mk 4 1) (-2147483648) 0 (Kernel.mk [] [])
      (by decide) (by decide) (by decide)⟩

/-- C3: for every requested state, if `open` returns a negative descriptor,
`ledControl` returns the service-specific error status, which is not OK, and
issues no `write`: the only file-system call of the invocation is the
`open` itself. -/
theorem ledControl_open_failure_no_write (o : Outcome) (in_state out : Int) (k : Kernel)
    (ho : o.openResult < 0) :
    (ledControl o in_state out k).status = ScopedAStatus.fromServiceSpecificError (-1) ∧
      (ledControl o in_state out k).status ≠ ScopedAStatus.ok ∧
      writesOf (ledControl o in_state out k).kernel.trace = writesOf k.trace ∧
      ioOf (ledControl o in_state out k).kernel.trace =
        ioOf k.trace ++ [Syscall.sysOpen LED_FILE_PATH O_WRONLY o.openResult] := by
  rw [ledControl_open_failed o in_state out k ho]
  simp [writesOf_append, writesOf, ioOf_append, ioOf, ScopedAStatus.fromServiceSpecificError]

/-- An instance of C3: `open` returning -1. -/
theorem ledControl_open_failure_no_write_witness :
    (Outcome.mk (-1) 3).openResult < 0 ∧
      (ledControl (Outcome.mk (-1) 3) 1 0 (Kernel.mk [] [])).status =
        ScopedAStatus.fromServiceSpecificError (-1) ∧
      (ledControl (Outcome.mk (-1) 3) 1 0 (Kernel.mk [] [])).status ≠ ScopedAStatus.ok ∧
      writesOf (ledControl (Outcome.mk (-1) 3) 1 0 (Kernel.mk [] [])).kernel.trace =
        writesOf [] ∧
      ioOf (ledControl (Outcome.mk (-1) 3) 1 0 (Kernel.mk [] [])).kernel.trace =
        ioOf [] ++ [Syscall.sysOpen LED_FILE_PATH O_WRONLY (-1)] :=
  ⟨by decide,
    ledControl_open_failure_no_write (Outcome.mk (-1) 3) 1 0 (Kernel.mk [] []) (by decide)⟩

/-- C4: for every requested state, when `open` succeeds, `ledControl`
returns a status other than OK exactly when `write` reports a negative
result, and that status is then the service-specific error. -/
theorem ledControl_write_failure_iff (o : Outcome) (in_state out : Int) (k : Kernel)
    (ho : 0 ≤ o.openResult) :
    ((ledControl o in_state out k).status ≠ ScopedAStatus.ok ↔ o.writeResult < 0) ∧
      (o.writeResult < 0 →
        (ledControl o in_state out k).status =
          ScopedAStatus.fromServiceSpecificError (-1)) := by
  by_cases hs : 0 < in_state
  · rw [ledControl_opened_on o in_state out k ho hs]
    by_cases hw : o.writeResult < 0 <;>
      simp [hw, ScopedAStatus.fromServiceSpecificError]
  · rw [ledControl_opened_off o in_state out k ho (by omega)]
    by_cases hw : o.writeResult < 0 <;>
      simp [hw, ScopedAStatus.fromServiceSpecificError]

/-- An instance of C4: descriptor 3 opened, `write` returning -1. -/
theorem ledControl_write_failure_iff_witness :
    (0 : Int) ≤ (Outcome.mk 3 (-1)).openResult ∧
      ((ledControl (Outcome.mk 3 (-1)) 1 0 (Kernel.mk [] [])).status ≠ ScopedAStatus.ok ↔
        (Outcome.mk 3 (-1)).writeResult < 0) ∧
      ((Outcome.mk 3 (-1)).writeResult < 0 →
        (ledControl (Outcome.mk 3 (-1)) 1 0 (Kernel.mk [] [])).status =
          ScopedAStatus.fromServiceSpecificError (-1)) :=
  ⟨by decide,
    ledControl_write_failure_iff (Outcome.mk 3 (-1)) 1 0 (Kernel.mk [] []) (by decide)⟩

/-- C5: for every requested state and every result of `write`, when `open`
succeeds `ledControl` closes the descriptor it obtained exactly once, after
the `write` and before returning; when `open` fails no descriptor is held
and none is closed.  The table of held descriptors is therefore the same
after an invocation as before it, and the same after any sequence of
invocations, failing ones included. -/
theorem ledControl_releases_descriptor (o : Outcome) (in_state out : Int) (k : Kernel)
    (calls : List (Outcome × Int)) :
    (ledControl o in_state out k).kernel.openFds = k.openFds ∧
      (0 ≤ o.openResult →
        closesOf (ledControl o in_state out k).kernel.trace =
            closesOf k.trace ++ [o.openResult] ∧
          ∃ bytes, ioOf (ledControl o in_state out k).kernel.trace =
            ioOf k.trace ++
              [Syscall.sysOpen LED_FILE_PATH O_WRONLY o.openResult,
               Syscall.sysWrite o.openResult bytes o.writeResult,
               Syscall.sysClose o.openResult]) ∧
      (o.openResult < 0 →
        (posixOpen o LED_FILE_PATH O_WRONLY k).2.openFds = k.openFds ∧
          closesOf (ledControl o in_state out k).kernel.trace = closesOf k.trace) ∧
      (repeatedCalls calls out k).2.openFds = k.openFds ∧
      (repeatedCalls calls out k).2.openFds.length = k.openFds.length := by
  refine ⟨ledControl_openFds o in_state out k, ?_, ?_, ?_, ?_⟩
  · intro ho
    refine ⟨?_, _, ledControl_io_opened o in_state out k ho⟩
    by_cases hs : 0 < in_state
    · rw [ledControl_opened_on o in_state out k ho hs]
      by_cases hw : o.writeResult < 0 <;> simp [hw, closesOf_append, closesOf]
    · rw [ledControl_opened_off o in_state out k ho (by omega)]
      by_cases hw : o.writeResult < 0 <;> simp [hw, closesOf_append, closesOf]
  · intro ho
    have h : ¬ (0 ≤ o.openResult) := by omega
    rw [ledControl_open_failed o in_state out k ho]
    simp [posixOpen, h, closesOf_append, closesOf]
  · exact repeatedCalls_openFds calls out k
  · rw [repeatedCalls_openFds calls out k]

/-- After a successful `open` the returned status is the service-specific
error exactly when `write` reports a negative result, and OK otherwise. -/
theorem ledControl_status_opened (o : Outcome) (in_state out : Int) (k : Kernel)
    (ho : 0 ≤ o.openResult) :
    (ledControl o in_state out k).status =
      (if o.writeResult < 0 then ScopedAStatus.serviceSpecificError (-1)
        else ScopedAStatus.ok) := by
  by_cases hs : 0 < in_state
  · rw [ledControl_opened_on o in_state out k ho hs]
  · rw [ledControl_opened_off o in_state out k ho (by omega)]

/-- C6, as the code has it: a short write is not an error.  For every
requested state, when `open` succeeds and `write` reports a non-negative count
smaller than the length of the literal handed to it (below 3 for a positive
state, below 1 otherwise), `ledControl` still returns OK and sets the output
cell to 1; and for every requested state and every result of `write`, after a
successful `open` the service-specific error is returned exactly when that
result is negative, every non-negative result giving OK. -/
theorem ledControl_short_write_is_ok (o : Outcome) (in_state out : Int) (k : Kernel)
    (ho : 0 ≤ o.openResult) (hw : 0 ≤ o.writeResult)
    (hshort : o.writeResult < (if 0 < in_state then 3 else 1)) :
    (∃ bytes : List Char,
      writesOf (ledControl o in_state out k).kernel.trace =
          writesOf k.trace ++ [(o.openResult, bytes)] ∧
        o.writeResult < (bytes.length : Int) ∧
        (ledControl o in_state out k).status = ScopedAStatus.ok ∧
        (ledControl o in_state out k).aidl_return = 1) ∧
      ∀ (o2 : Outcome) (s2 out2 : Int) (k2 : Kernel), 0 ≤ o2.openResult →
        ((ledControl o2 s2 out2 k2).status = ScopedAStatus.fromServiceSpecificError (-1) ↔
            o2.writeResult < 0) ∧
          ((ledControl o2 s2 out2 k2).status = ScopedAStatus.ok ↔ 0 ≤ o2.writeResult) := by
  have hw2 : ¬ (o.writeResult < 0) := by omega
  refine ⟨?_, ?_⟩
  · by_cases hs : 0 < in_state
    · refine ⟨['2', '5', '5'], ?_⟩
      rw [ledControl_opened_on o in_state out k ho hs]
      simp [hs] at hshort
      simp [hw2, writesOf_append, writesOf, hshort]
    · refine ⟨['0'], ?_⟩
      rw [ledControl_opened_off o in_state out k ho (by omega)]
      simp [hs] at hshort
      simp [hw2, writesOf_append, writesOf, hshort]
  · intro o2 s2 out2 k2 ho2
    rw [ledControl_status_opened o2 s2 out2 k2 ho2]
    by_cases h : o2.writeResult < 0
    · have h2 : ¬ (0 ≤ o2.writeResult) := by omega
      simp [h, h2, ScopedAStatus.fromServiceSpecificError]
    · have h2 : 0 ≤ o2.writeResult := by omega
      simp [h, h2, ScopedAStatus.fromServiceSpecificError]

/-- An instance of C6 as amended: state -5, `write` reporting 0 bytes. -/
theorem ledControl_short_write_is_ok_witness :
    (0 : Int) ≤ (Outcome.mk 5 0).openResult ∧ (0 : Int) ≤ (Outcome.mk 5 0).writeResult ∧
      (Outcome.mk 5 0).writeResult < (if (0 : Int) < -5 then 3 else 1) ∧
      (∃ bytes : List Char,
        writesOf (ledControl (Outcome.mk 5 0) (-5) 0 (Kernel.mk [] [])).kernel.trace =
            writesOf [] ++ [(5, bytes)] ∧
          (Outcome.mk 5 0).writeResult < (bytes.length : Int) ∧
          (ledControl (Outcome.mk 5 0) (-5) 0 (Kernel.mk [] [])).status = ScopedAStatus.ok ∧
          (ledControl (Outcome.mk 5 0) (-5) 0 (Kernel.mk [] [])).aidl_return = 1) ∧
      ∀ (o2 : Outcome) (s2 out2 : Int) (k2 : Kernel), 0 ≤ o2.openResult →
        ((ledControl o2 s2 out2 k2).status = ScopedAStatus.fromServiceSpecificError (-1) ↔
            o2.writeResult < 0) ∧
          ((ledControl o2 s2 out2 k2).status = ScopedAStatus.ok ↔ 0 ≤ o2.writeResult) :=
  ⟨by decide, by decide, by decide,
    ledControl_short_write_is_ok (Outcome.mk 5 0) (-5) 0 (Kernel.mk [] [])
      (by decide) (by decide) (by decide)⟩

/-- C6 as stated fails: with state 1, `open` returning descriptor 3 and
`write` reporting 1 byte of the 3 handed to it, `ledControl` returns OK, not
the service-specific error. -/
theorem short_write_not_an_error :
    writesOf (ledControl (Outcome.mk 3 1) 1 0 (Kernel.mk [] [])).kernel.trace =
        [(3, ['2', '5', '5'])] ∧
      (0 : Int) ≤ (Outcome.mk 3 1).writeResult ∧ (Outcome.mk 3 1).writeResult < 3 ∧
      (ledControl (Outcome.mk 3 1) 1 0 (Kernel.mk [] [])).status = ScopedAStatus.ok ∧
      (ledControl (Outcome.mk 3 1) 1 0 (Kernel.mk [] [])).status ≠
        ScopedAStatus.fromServiceSpecificError (-1) := by
  decide

/-- C7: the status `ledControl` returns when `open` fails is the very status
it returns when `write` fails, the service-specific error built from -1, for
all requested states; and over all inputs and answers of the operating system
the returned status takes exactly two values, OK and that error. -/
theorem ledControl_single_error_status (o1 o2 : Outcome) (s1 s2 out1 out2 : Int)
    (k1 k2 : Kernel) (h1 : o1.openResult < 0) (h2 : 0 ≤ o2.openResult)
    (h3 : o2.writeResult < 0) :
    (ledControl o1 s1 out1 k1).status = (ledControl o2 s2 out2 k2).status ∧
      (ledControl o1 s1 out1 k1).status = ScopedAStatus.fromServiceSpecificError (-1) ∧
      ∀ st : ScopedAStatus,
        (∃ o s out k, (ledControl o s out k).status = st) ↔
          (st = ScopedAStatus.ok ∨ st = (ledControl o1 s1 out1 k1).status) := by
  have e1 : (ledControl o1 s1 out1 k1).status = ScopedAStatus.serviceSpecificError (-1) := by
    rw [ledControl_open_failed o1 s1 out1 k1 h1]
  have e2 : (ledControl o2 s2 out2 k2).status = ScopedAStatus.serviceSpecificError (-1) := by
    by_cases hs : 0 < s2
    · rw [ledControl_opened_on o2 s2 out2 k2 h2 hs]; simp [h3]
    · rw [ledControl_opened_off o2 s2 out2 k2 h2 (by omega)]; simp [h3]
  refine ⟨by rw [e1, e2], by rw [e1]; rfl, ?_⟩
  intro st
  rw [e1]
  constructor
  · rintro ⟨o, s, out, k, rfl⟩
    by_cases ho : 0 ≤ o.openResult
    · by_cases hs : 0 < s
      · rw [ledControl_opened_on o s out k ho hs]
        by_cases hw : o.writeResult < 0 <;> simp [hw]
      · rw [ledControl_opened_off o s out k ho (by omega)]
        by_cases hw : o.writeResult < 0 <;> simp [hw]
    · rw [ledControl_open_failed o s out k (by omega)]
      simp
  · rintro (rfl | rfl)
    · exact ⟨Outcome.mk 3 3, 1, 0, Kernel.mk [] [], by decide⟩
    · exact ⟨Outcome.mk (-1) 0, 1, 0, Kernel.mk [] [], by decide⟩

/-- An instance of C7: `open` failing with state 1 against `write` failing
with state 0. -/
theorem ledControl_single_error_status_witness :
    (Outcome.mk (-1) 0).openResult < 0 ∧ 0 ≤ (Outcome.mk 3 (-1)).openResult ∧
      (Outcome.mk 3 (-1)).writeResult < 0 ∧
      (ledControl (Outcome.mk (-1) 0) 1 0 (Kernel.mk [] [])).status =
        (ledControl (Outcome.mk 3 (-1)) 0 7 (Kernel.mk [] [])).status ∧
      (ledControl (Outcome.mk (-1) 0) 1 0 (Kernel.mk [] [])).status =
        ScopedAStatus.fromServiceSpecificError (-1) ∧
      ∀ st : ScopedAStatus,
        (∃ o s out k, (ledControl o s out k).status = st) ↔
          (st = ScopedAStatus.ok ∨
            st = (ledControl (Outcome.mk (-1) 0) 1 0 (Kernel.mk [] [])).status) :=
  ⟨by decide, by decide, by decide,
    ledControl_single_error_status (Outcome.mk (-1) 0) (Outcome.mk 3 (-1)) 1 0 0 7
      (Kernel.mk [] []) (Kernel.mk [] []) (by decide) (by decide) (by decide)⟩

/-- C8, as the code has it: every invocation issues exactly one `open`, on the
fixed path `/sys/class/leds/ACT/brightness` whatever the requested state.
When that `open` succeeds the invocation goes on with exactly one `write`
and then exactly one `close`, both on the descriptor this `open` returned;
when it fails the invocation issues no `write` and no `close`. -/
theorem ledControl_open_write_close (o : Outcome) (in_state out : Int) (k : Kernel) :
    opensOf (ledControl o in_state out k).kernel.trace =
        opensOf k.trace ++ [("/sys/class/leds/ACT/brightness", O_WRONLY, o.openResult)] ∧
      (0 ≤ o.openResult →
        ∃ bytes, ioOf (ledControl o in_state out k).kernel.trace =
          ioOf k.trace ++
            [Syscall.sysOpen "/sys/class/leds/ACT/brightness" O_WRONLY o.openResult,
             Syscall.sysWrite o.openResult bytes o.writeResult,
             Syscall.sysClose o.openResult]) ∧
      (o.openResult < 0 →
        ioOf (ledControl o in_state out k).kernel.trace =
          ioOf k.trace ++
            [Syscall.sysOpen "/sys/class/leds/ACT/brightness" O_WRONLY o.openResult]) := by
  refine ⟨?_, fun ho => ⟨_, ledControl_io_opened o in_state out k ho⟩,
    fun ho => ledControl_io_failed o in_state out k ho⟩
  by_cases ho : 0 ≤ o.openResult
  · by_cases hs : 0 < in_state
    · rw [ledControl_opened_on o in_state out k ho hs]
      by_cases hw : o.writeResult < 0 <;> simp [hw, opensOf_append, opensOf, LED_FILE_PATH]
    · rw [ledControl_opened_off o in_state out k ho (by omega)]
      by_cases hw : o.writeResult < 0 <;> simp [hw, opensOf_append, opensOf, LED_FILE_PATH]
  · rw [ledControl_open_failed o in_state out k (by omega)]
    simp [opensOf_append, opensOf, LED_FILE_PATH]

/-- C8 as stated fails: with state 1 and `open` returning -1, the invocation
issues the `open` and nothing else, so no `write` and no `close`. -/
theorem open_failure_skips_write_and_close :
    ioOf (ledControl (Outcome.mk (-1) 3) 1 0 (Kernel.mk [] [])).kernel.trace =
        [Syscall.sysOpen "/sys/class/leds/ACT/brightness" O_WRONLY (-1)] ∧
      (opensOf (ledControl (Outcome.mk (-1) 3) 1 0 (Kernel.mk [] [])).kernel.trace).length = 1 ∧
      (writesOf (ledControl (Outcome.mk (-1) 3) 1 0 (Kernel.mk [] [])).kernel.trace).length = 0 ∧
      (closesOf (ledControl (Outcome.mk (-1) 3) 1 0 (Kernel.mk [] [])).kernel.trace).length = 0 ∧
      ¬ ((writesOf (ledControl (Outcome.mk (-1) 3) 1 0 (Kernel.mk [] [])).kernel.trace).length = 1 ∧
        (closesOf (ledControl (Outcome.mk (-1) 3) 1 0 (Kernel.mk [] [])).kernel.trace).length
          = 1) := by
  decide

/-- C9: under successful opens and writes, invoking `ledControl` a second
time with the same requested state leaves the same most recently written
bytes as the first invocation did and returns the same status and output;
and two requested states on the same side of the test `> 0` give the same
result in every respect, whatever the operating system answers. -/
theorem ledControl_idempotent (o1 o2 : Outcome) (s s2 out : Int) (k : Kernel)
    (h1 : 0 ≤ o1.openResult) (h1w : 0 ≤ o1.writeResult)
    (h2 : 0 ≤ o2.openResult) (h2w : 0 ≤ o2.writeResult)
    (hsign : 0 < s ↔ 0 < s2) :
    lastWritten (ledControl o1 s out k).kernel.trace =
        some (if 0 < s then ['2', '5', '5'] else ['0']) ∧
      lastWritten (ledControl o2 s (ledControl o1 s out k).aidl_return
          (ledControl o1 s out k).kernel).kernel.trace =
        lastWritten (ledControl o1 s out k).kernel.trace ∧
      (ledControl o2 s (ledControl o1 s out k).aidl_return
          (ledControl o1 s out k).kernel).status = (ledControl o1 s out k).status ∧
      (ledControl o2 s (ledControl o1 s out k).aidl_return
          (ledControl o1 s out k).kernel).aidl_return = (ledControl o1 s out k).aidl_return ∧
      ∀ (o : Outcome) (v : Int) (k0 : Kernel),
        ledControl o s2 v k0 = ledControl o s v k0 := by
  have hw1 : ¬ (o1.writeResult < 0) := by omega
  have hw2 : ¬ (o2.writeResult < 0) := by omega
  refine ⟨?_, ?_, ?_, ?_, ?_⟩
  · by_cases hs : 0 < s
    · rw [ledControl_opened_on o1 s out k h1 hs]
      simp [hw1, hs, lastWritten, writesOf_append, writesOf]
    · rw [ledControl_opened_off o1 s out k h1 (by omega)]
      simp [hw1, hs, lastWritten, writesOf_append, writesOf]
  · by_cases hs : 0 < s
    · rw [ledControl_opened_on o2 s _ _ h2 hs, ledControl_opened_on o1 s out k h1 hs]
      simp [hw1, hw2, lastWritten, writesOf_append, writesOf]
    · rw [ledControl_opened_off o2 s _ _ h2 (by omega),
        ledControl_opened_off o1 s out k h1 (by omega)]
      simp [hw1, hw2, lastWritten, writesOf_append, writesOf]
  · by_cases hs : 0 < s
    · rw [ledControl_opened_on o2 s _ _ h2 hs, ledControl_opened_on o1 s out k h1 hs]
      simp [hw1, hw2]
    · rw [ledControl_opened_off o2 s _ _ h2 (by omega),
        ledControl_opened_off o1 s out k h1 (by omega)]
      simp [hw1, hw2]
  · by_cases hs : 0 < s
    · rw [ledControl_opened_on o2 s _ _ h2 hs, ledControl_opened_on o1 s out k h1 hs]
      simp [hw1, hw2]
    · rw [ledControl_opened_off o2 s _ _ h2 (by omega),
        ledControl_opened_off o1 s out k h1 (by omega)]
      simp [hw1, hw2]
  · intro o v k0
    by_cases ho : 0 ≤ o.openResult
    · by_cases hs : 0 < s
      · rw [ledControl_opened_on o s v k0 ho hs,
          ledControl_opened_on o s2 v k0 ho (hsign.mp hs)]
      · have hs2 : ¬ (0 < s2) := fun h => hs (hsign.mpr h)
        rw [ledControl_opened_off o s v k0 ho (by omega),
          ledControl_opened_off o s2 v k0 ho (by omega)]
    · rw [ledControl_open_failed o s v k0 (by omega),
        ledControl_open_failed o s2 v k0 (by omega)]

/-- An instance of C9: state 1 invoked twice, on descriptors 3 and 4, and
state 1 against the largest 32-bit state. -/
theorem ledControl_idempotent_witness :
    (0 : Int) ≤ (Outcome.mk 3 3).openResult ∧ (0 : Int) ≤ (Outcome.mk 3 3).writeResult ∧
      (0 : Int) ≤ (Outcome.mk 4 3).openResult ∧ (0 : Int) ≤ (Outcome.mk 4 3).writeResult ∧
      ((0 : Int) < 1 ↔ (0 : Int) < 2147483647) ∧
      lastWritten (ledControl (Outcome.mk 4 3) 1
          (ledControl (Outcome.mk 3 3) 1 0 (Kernel.mk [] [])).aidl_return
          (ledControl (Outcome.mk 3 3) 1 0 (Kernel.mk [] [])).kernel).kernel.trace =
        lastWritten (ledControl (Outcome.mk 3 3) 1 0 (Kernel.mk [] [])).kernel.trace ∧
      ∀ (o : Outcome) (v : Int) (k0 : Kernel),
        ledControl o 2147483647 v k0 = ledControl o 1 v k0 :=
  ⟨by decide, by decide, by decide, by decide, by decide,
    (ledControl_idempotent (Outcome.mk 3 3) (Outcome.mk 4 3) 1 2147483647 0 (Kernel.mk [] [])
      (by decide) (by decide) (by decide) (by decide) (by decide)).2.1,
    (ledControl_idempotent (Outcome.mk 3 3) (Outcome.mk 4 3) 1 2147483647 0 (Kernel.mk [] [])
      (by decide) (by decide) (by decide) (by decide) (by decide)).2.2.2.2⟩

end Rpilight
